import Mathlib

/-!
Verification of the morpho-rs tool-invocation adapter (src/integration/python).

The repository holds two Python deployment shapes of the same dispatch logic:

* `lm_studio_handler.py` — the stdio shape: `handle_function_call` plus a
  `__main__` block that reads one JSON document, dispatches, and prints the
  result with `json.dumps`.
* `qwen_tools.py` — the library shape: `call_tool` plus a static tool catalog.

This file shallowly embeds both functions.  JSON values are a small inductive
type; Python dictionaries are association lists; the HTTP backend is a
parameter mapping (endpoint, body) to an outcome; Python exceptions
(`KeyError`, `requests` transport failures, JSON decode errors) are an
explicit `PyResult` sum; each run also returns the list of HTTP requests it
attempted, so "no network call was made" is a statement about that trace.
-/

namespace Morpho

/-- JSON-compatible values, the data both scripts pass around. -/
inductive Json where
  | null
  | bool (b : Bool)
  | num (n : Int)
  | str (s : String)
  | arr (xs : List Json)
  | obj (fields : List (String × Json))

/-- First-match lookup in an association list, modelling Python dict access
(argument mappings have unique keys). -/
def lookupStr (fields : List (String × Json)) (k : String) : Option Json :=
  match fields with
  | [] => none
  | (k2, v) :: rest => if k2 == k then some v else lookupStr rest k

/-- Python `dict.get(k, default)`. -/
def dictGet (fields : List (String × Json)) (k : String) (default : Json) : Json :=
  (lookupStr fields k).getD default

/-- The Python exceptions the two scripts can raise. -/
inductive PyExn where
  | keyError (key : String)
  | requestException (msg : String)
  | jsonDecodeError
  | typeError

/-- Outcome of running a fragment of Python: a returned value, or an
exception propagating out of it. -/
inductive PyResult (α : Type) where
  | ok (v : α)
  | exn (e : PyExn)

/-- An HTTP response as `requests` exposes it: `status_code`, the raw body
`text`, and `jsonBody`, the decoded body when `.json()` would succeed
(`none` models a body that is not valid JSON, where `.json()` raises). -/
structure HttpResponse where
  status_code : Nat
  text : String
  jsonBody : Option Json

/-- Outcome of `requests.post`: either a response arrived, or the request
failed at the network level (connection refused, timeout, DNS failure),
in which case `requests` raises. -/
inductive HttpOutcome where
  | response (r : HttpResponse)
  | transportFailure (msg : String)

/-- The backend collaborator: what each POST of a JSON body to an endpoint
path under the fixed base address returns. -/
def Backend : Type := String → List (String × Json) → HttpOutcome

/-- A backend that answers every request the same way. -/
def constBackend (o : HttpOutcome) : Backend := fun _ _ => o

/-- One attempted HTTP POST: the endpoint path and the JSON body sent. -/
structure SentRequest where
  endpoint : String
  body : List (String × Json)

/-- Python `d[k]` on a dict: the value, or a raised `KeyError`. -/
def dictIndex (fields : List (String × Json)) (k : String) : PyResult Json :=
  match lookupStr fields k with
  | some v => PyResult.ok v
  | none => PyResult.exn (PyExn.keyError k)

/-- Python `j[k]` on a decoded JSON value: `KeyError` when the key is
absent, `TypeError` when the value is not a dict. -/
def jsonIndex (j : Json) (k : String) : PyResult Json :=
  match j with
  | Json.obj fields => dictIndex fields k
  | _ => PyResult.exn PyExn.typeError

/-- The error envelope `lm_studio_handler.py` builds for a non-200 status:
`\x7b"error": f"HTTP \x7bstatus\x7d: \x7btext\x7d"\x7d`. -/
def errEnvelope (status : Nat) (text : String) : Json :=
  Json.obj [("error", Json.str ("HTTP " ++ toString status ++ ": " ++ text))]

/-- Lines 54–57 of `lm_studio_handler.py`: classify the outcome of the POST.
Status 200 decodes the body (`response.json()`, raising on invalid JSON);
any other status yields the error envelope built from the raw text; a
transport failure means `requests.post` itself raised. -/
def classifyStdio (o : HttpOutcome) : PyResult Json :=
  match o with
  | HttpOutcome.transportFailure msg => PyResult.exn (PyExn.requestException msg)
  | HttpOutcome.response r =>
    if r.status_code == 200 then
      match r.jsonBody with
      | some j => PyResult.ok j
      | none => PyResult.exn PyExn.jsonDecodeError
    else
      PyResult.ok (errEnvelope r.status_code r.text)

/-- `qwen_tools.py`: `resp.json()["result"]`, applied to every outcome with
no status check at all.  A transport failure raised inside `requests.post`;
an undecodable body raises in `.json()`; a decoded body without a `result`
key raises `KeyError`. -/
def classifyQwen (o : HttpOutcome) : PyResult Json :=
  match o with
  | HttpOutcome.transportFailure msg => PyResult.exn (PyExn.requestException msg)
  | HttpOutcome.response r =>
    match r.jsonBody with
    | some j => jsonIndex j "result"
    | none => PyResult.exn PyExn.jsonDecodeError

/-- `handle_function_call(function_name, arguments)` from
`lm_studio_handler.py` (lines 22–57), faithful to the if/elif dispatch:
each branch builds its body dict (evaluating `arguments["function"]`
first, which raises `KeyError` before any POST when the key is absent),
POSTs it, and the shared tail classifies the response; the else branch
returns the unknown-function envelope with no POST. -/
def handle_function_call (backend : Backend) (function_name : String)
    (arguments : List (String × Json)) : PyResult Json × List SentRequest :=
  if function_name == "list_rust_items" then
    let body := [("public_only", dictGet arguments "public_only" (Json.bool false)),
                 ("blacklist", dictGet arguments "blacklist" (Json.arr []))]
    (classifyStdio (backend "/tool/list_all" body), [⟨"/tool/list_all", body⟩])
  else if function_name == "analyze_rust_callgraph" then
    match lookupStr arguments "function" with
    | none => (PyResult.exn (PyExn.keyError "function"), [])
    | some fv =>
      let body := [("root_function", fv),
                   ("public_only", dictGet arguments "public_only" (Json.bool false)),
                   ("blacklist", dictGet arguments "blacklist" (Json.arr []))]
      (classifyStdio (backend "/tool/generate_call_graph" body),
       [⟨"/tool/generate_call_graph", body⟩])
  else if function_name == "get_rust_source" then
    match lookupStr arguments "function" with
    | none => (PyResult.exn (PyExn.keyError "function"), [])
    | some fv =>
      let body := [("function", fv),
                   ("blacklist", dictGet arguments "blacklist" (Json.arr []))]
      (classifyStdio (backend "/tool/get_source" body), [⟨"/tool/get_source", body⟩])
  else
    (PyResult.ok (Json.obj [("error", Json.str ("Unknown function: " ++ function_name))]), [])

/-- `call_tool(tool_name, arguments)` from `qwen_tools.py` (lines 94–123):
the same three body constructions, but every branch returns
`resp.json()["result"]` with no status check, and there is no else
branch — an unrecognized name falls off the end and returns `None`. -/
def call_tool (backend : Backend) (tool_name : String)
    (arguments : List (String × Json)) : PyResult Json × List SentRequest :=
  if tool_name == "list_rust_items" then
    let body := [("public_only", dictGet arguments "public_only" (Json.bool false)),
                 ("blacklist", dictGet arguments "blacklist" (Json.arr []))]
    (classifyQwen (backend "/tool/list_all" body), [⟨"/tool/list_all", body⟩])
  else if tool_name == "analyze_rust_callgraph" then
    match lookupStr arguments "function" with
    | none => (PyResult.exn (PyExn.keyError "function"), [])
    | some fv =>
      let body := [("root_function", fv),
                   ("public_only", dictGet arguments "public_only" (Json.bool false)),
                   ("blacklist", dictGet arguments "blacklist" (Json.arr []))]
      (classifyQwen (backend "/tool/generate_call_graph" body),
       [⟨"/tool/generate_call_graph", body⟩])
  else if tool_name == "get_rust_source" then
    match lookupStr arguments "function" with
    | none => (PyResult.exn (PyExn.keyError "function"), [])
    | some fv =>
      let body := [("function", fv),
                   ("blacklist", dictGet arguments "blacklist" (Json.arr []))]
      (classifyQwen (backend "/tool/get_source" body), [⟨"/tool/get_source", body⟩])
  else
    (PyResult.ok Json.null, [])

/-- Escape one character the way `json.dumps` does for the characters our
model meets (quote, backslash, the common control characters). -/
def escChar (c : Char) : String :=
  if c == '\\' then "\\\\"
  else if c == '"' then "\\\""
  else if c == '\n' then "\\n"
  else if c == '\t' then "\\t"
  else if c == '\r' then "\\r"
  else String.singleton c

/-- A JSON string literal as `json.dumps` prints it. -/
def jstring (s : String) : String :=
  "\"" ++ String.join (s.toList.map escChar) ++ "\""

mutual

/-- Python `json.dumps` with its default separators (a comma-space between
items, a colon-space after keys). -/
def dumps : Json → String
  | Json.null => "null"
  | Json.bool true => "true"
  | Json.bool false => "false"
  | Json.num n => toString n
  | Json.str s => jstring s
  | Json.arr xs => "[" ++ dumpsElems xs ++ "]"
  | Json.obj fs => "\x7b" ++ dumpsMembers fs ++ "\x7d"

/-- Array elements, comma-space separated. -/
def dumpsElems : List Json → String
  | [] => ""
  | [j] => dumps j
  | j :: rest => dumps j ++ ", " ++ dumpsElems rest

/-- Object members, comma-space separated, colon-space after each key. -/
def dumpsMembers : List (String × Json) → String
  | [] => ""
  | [kv] => jstring kv.1 ++ ": " ++ dumps kv.2
  | kv :: rest => jstring kv.1 ++ ": " ++ dumps kv.2 ++ ", " ++ dumpsMembers rest

end

/-- The `__main__` block of `lm_studio_handler.py` (lines 59–62) after the
input document has been decoded into a name and an arguments mapping: it
calls `handle_function_call` and prints `json.dumps(result)`.  Nothing in
the block catches exceptions, so an exception from the dispatch propagates
and the process dies with a traceback instead of printing anything;
`PyResult.exn` in the first component models exactly that crash, while
`PyResult.ok s` means ran to completion with `s` on stdout. -/
def stdio_main (backend : Backend) (name : String)
    (arguments : List (String × Json)) : PyResult String × List SentRequest :=
  match handle_function_call backend name arguments with
  | (PyResult.ok j, tr) => (PyResult.ok (dumps j), tr)
  | (PyResult.exn e, tr) => (PyResult.exn e, tr)

/-- The three tool names the dispatch tables recognize. -/
def validTool (n : String) : Bool :=
  n == "list_rust_items" || n == "analyze_rust_callgraph" || n == "get_rust_source"

/-- The tools whose argument mapping must supply `function`. -/
def requiresFunction (n : String) : Bool :=
  n == "analyze_rust_callgraph" || n == "get_rust_source"

/-- The arguments carry every required key for tool `n`. -/
def requiredPresent (n : String) (args : List (String × Json)) : Bool :=
  !(requiresFunction n) || (lookupStr args "function").isSome

/-- The run ended in a raised exception. -/
def isExn {α : Type} : PyResult α → Bool
  | PyResult.exn _ => true
  | PyResult.ok _ => false

/-- The run returned a value that signals an error: an object carrying an
`error` key (the envelopes both scripts can build). -/
def mentionsErrorKey : PyResult Json → Bool
  | PyResult.ok (Json.obj fs) => (lookupStr fs "error").isSome
  | _ => false

/-- The outcome surfaces an error in any form: a raised exception or an
error envelope.  Its negation is a successful-looking result. -/
def isErrorOutcome (r : PyResult Json) : Bool :=
  isExn r || mentionsErrorKey r

/-- The key list of each request body, in order. -/
def bodyKeys (r : SentRequest) : List String :=
  r.body.map Prod.fst

/-- Byte-level rendering of an attempted request: endpoint plus the
serialized JSON body, for byte-identity comparisons. -/
def renderRequest (r : SentRequest) : String :=
  r.endpoint ++ " " ++ dumps (Json.obj r.body)

/-- Two successive invocations of `handle_function_call` on the same
request against the same backend, each rendered to bytes.  The pair makes
the per-call trace of each invocation a separate observable. -/
def runTwiceStdio (backend : Backend) (name : String)
    (args : List (String × Json)) : List String × List String :=
  let first := handle_function_call backend name args
  let second := handle_function_call backend name args
  (first.2.map renderRequest, second.2.map renderRequest)

/-- Two successive invocations of `call_tool`, rendered to bytes. -/
def runTwiceQwen (backend : Backend) (name : String)
    (args : List (String × Json)) : List String × List String :=
  let first := call_tool backend name args
  let second := call_tool backend name args
  (first.2.map renderRequest, second.2.map renderRequest)

/-- Fixture: a 404 response whose body happens to decode as JSON with a
`result` key. -/
def resp404J : HttpResponse :=
  ⟨404, "not found", some (Json.obj [("result", Json.str "oops")])⟩

/-- Fixture: a 404 response whose body `"not found"` is not valid JSON. -/
def resp404N : HttpResponse := ⟨404, "not found", none⟩

/-- Fixture: a 200 response whose body is not valid JSON. -/
def resp200N : HttpResponse := ⟨200, "", none⟩

/-- Fixture: the spec's worked success case, HTTP 200 with decoded body
`\x7b"result": \x7b"items": ["a", "b"]\x7d\x7d`. -/
def resp200items : HttpResponse :=
  ⟨200, "", some (Json.obj [("result", Json.obj [("items", Json.arr [Json.str "a", Json.str "b"])])])⟩

/-- Claim C1, counterexample.  The claim says both shapes turn every
non-200 response into a `BackendError` carrying the status and the raw
body text, never parsing the body as JSON.  `call_tool` refutes it: on a
404 response whose body decodes as JSON it returns the parsed
`result` value — a successful-looking outcome carrying neither the status
404 nor the text "not found" — and on a 404 response whose body is not
JSON it raises a JSON decode error, so the error body is parsed as JSON. -/
theorem C1_counterexample :
    (call_tool (constBackend (HttpOutcome.response resp404J)) "list_rust_items" []).1
      = PyResult.ok (Json.str "oops")
    ∧ isErrorOutcome
        (call_tool (constBackend (HttpOutcome.response resp404J)) "list_rust_items" []).1 = false
    ∧ (call_tool (constBackend (HttpOutcome.response resp404N)) "list_rust_items" []).1
      = PyResult.exn PyExn.jsonDecodeError :=
  ⟨rfl, rfl, rfl⟩

/-- Claim C1, amended.  Only the stdio shape classifies the status: for
every non-200 response, `handle_function_call` returns the error envelope
built from the numeric status and the raw body text, without consulting
the decoded body.  `call_tool` performs no status check at all: its
outcome depends only on the decoded JSON body, so two responses with the
same decoded body but different statuses and texts are indistinguishable
to it. -/
theorem C1_amended (name : String) (args : List (String × Json)) (r r2 : HttpResponse)
    (hvalid : validTool name = true) (hreq : requiredPresent name args = true)
    (hs : r.status_code ≠ 200) (hb : r.jsonBody = r2.jsonBody) :
    (handle_function_call (constBackend (HttpOutcome.response r)) name args).1
      = PyResult.ok (errEnvelope r.status_code r.text)
    ∧ (call_tool (constBackend (HttpOutcome.response r)) name args).1
      = (call_tool (constBackend (HttpOutcome.response r2)) name args).1 := by
  have hsb : (r.status_code == 200) = false := beq_eq_false_iff_ne.mpr hs
  have hv3 : (name = "list_rust_items" ∨ name = "analyze_rust_callgraph")
      ∨ name = "get_rust_source" := by
    simpa [validTool] using hvalid
  rcases hv3 with (h | h) | h
  · subst h
    constructor
    · simp [handle_function_call, constBackend, classifyStdio, hsb]
    · simp [call_tool, constBackend, classifyQwen, hb]
  · subst h
    obtain ⟨v, hv⟩ := Option.isSome_iff_exists.mp
      (by simpa [requiredPresent, requiresFunction] using hreq)
    constructor
    · simp [handle_function_call, constBackend, classifyStdio, hsb, hv]
    · simp [call_tool, constBackend, classifyQwen, hb, hv]
  · subst h
    obtain ⟨v, hv⟩ := Option.isSome_iff_exists.mp
      (by simpa [requiredPresent, requiresFunction] using hreq)
    constructor
    · simp [handle_function_call, constBackend, classifyStdio, hsb, hv]
    · simp [call_tool, constBackend, classifyQwen, hb, hv]

/-- Claim C1, witness for the amended theorem at a concrete input: a 404
response with body "not found" that is not valid JSON. -/
theorem C1_amended_witness :
    validTool "list_rust_items" = true
    ∧ requiredPresent "list_rust_items" [] = true
    ∧ resp404N.status_code ≠ 200
    ∧ resp404N.jsonBody = resp200N.jsonBody
    ∧ ((handle_function_call (constBackend (HttpOutcome.response resp404N)) "list_rust_items" []).1
        = PyResult.ok (errEnvelope resp404N.status_code resp404N.text)
      ∧ (call_tool (constBackend (HttpOutcome.response resp404N)) "list_rust_items" []).1
        = (call_tool (constBackend (HttpOutcome.response resp200N)) "list_rust_items" []).1) :=
  ⟨rfl, rfl, by decide, rfl,
    C1_amended "list_rust_items" [] resp404N resp200N rfl rfl (by decide) rfl⟩

/-- Claim C2, counterexample.  The claim says both shapes fail on an
unknown tool name with an error carrying the offending name.  `call_tool`
refutes it: it has no else branch, so `"delete_everything"` falls off the
end and returns Python `None` — no exception, no error key, no mention of
the name — though indeed with no HTTP request attempted. -/
theorem C2_counterexample :
    call_tool (constBackend (HttpOutcome.response resp200items)) "delete_everything" []
      = (PyResult.ok Json.null, [])
    ∧ isErrorOutcome
        (call_tool (constBackend (HttpOutcome.response resp200items)) "delete_everything" []).1
      = false :=
  ⟨rfl, rfl⟩

/-- Claim C2, amended.  For every name outside the fixed tool set, neither
shape attempts an HTTP request; `handle_function_call` returns the
`\x7berror: "Unknown function: <name>"\x7d` envelope carrying the offending
name, while `call_tool` silently swallows the error and returns `None`, a
successful-looking result. -/
theorem C2_amended (backend : Backend) (name : String) (args : List (String × Json))
    (h : validTool name = false) :
    handle_function_call backend name args
      = (PyResult.ok (Json.obj [("error", Json.str ("Unknown function: " ++ name))]), [])
    ∧ call_tool backend name args = (PyResult.ok Json.null, []) := by
  have h3 : (¬name = "list_rust_items" ∧ ¬name = "analyze_rust_callgraph")
      ∧ ¬name = "get_rust_source" := by
    simpa [validTool, not_or] using h
  obtain ⟨⟨h1, h2⟩, h3⟩ := h3
  constructor <;> simp [handle_function_call, call_tool, h1, h2, h3]

/-- Claim C2, witness for the amended theorem at the spec's own example
name `"delete_everything"`. -/
theorem C2_amended_witness :
    validTool "delete_everything" = false
    ∧ (handle_function_call (constBackend (HttpOutcome.response resp200items)) "delete_everything" []
        = (PyResult.ok (Json.obj [("error", Json.str ("Unknown function: " ++ "delete_everything"))]), [])
      ∧ call_tool (constBackend (HttpOutcome.response resp200items)) "delete_everything" []
        = (PyResult.ok Json.null, [])) :=
  ⟨rfl, C2_amended (constBackend (HttpOutcome.response resp200items)) "delete_everything" [] rfl⟩

/-- Claim C3, counterexample.  The claim says the stdio shape converts
every error kind into a `\x7berror: string\x7d` document and always
terminates normally.  It refutes on two of the four kinds: a missing
required argument raises `KeyError("function")` and a network-level
failure raises the `requests` exception, and the `__main__` block (which
has no try/except) lets both propagate — the process dies with a
traceback instead of printing an error document. -/
theorem C3_counterexample :
    (stdio_main (constBackend (HttpOutcome.response resp200items)) "get_rust_source" []).1
      = PyResult.exn (PyExn.keyError "function")
    ∧ (stdio_main (constBackend (HttpOutcome.transportFailure "connection refused"))
        "list_rust_items" []).1
      = PyResult.exn (PyExn.requestException "connection refused")
    ∧ isExn (stdio_main (constBackend (HttpOutcome.response resp200items)) "get_rust_source" []).1
      = true :=
  ⟨rfl, rfl, rfl⟩

/-- Claim C3, amended.  The stdio shape converts exactly two of the four
error kinds into a printed `\x7berror: string\x7d` document with normal
termination — an unknown tool name and a non-200 backend status — while
the other two propagate as uncaught exceptions that crash the process:
a missing required argument (`KeyError`) and a transport failure (the
`requests` exception). -/
theorem C3_amended (backend : Backend) (name : String) (args : List (String × Json))
    (msg : String) (r : HttpResponse) :
    (validTool name = false →
      stdio_main backend name args
        = (PyResult.ok (dumps (Json.obj [("error", Json.str ("Unknown function: " ++ name))])), []))
    ∧ (validTool name = true → requiredPresent name args = true → r.status_code ≠ 200 →
      (stdio_main (constBackend (HttpOutcome.response r)) name args).1
        = PyResult.ok (dumps (errEnvelope r.status_code r.text)))
    ∧ (requiresFunction name = true → lookupStr args "function" = none →
      stdio_main backend name args = (PyResult.exn (PyExn.keyError "function"), []))
    ∧ (validTool name = true → requiredPresent name args = true →
      (stdio_main (constBackend (HttpOutcome.transportFailure msg)) name args).1
        = PyResult.exn (PyExn.requestException msg)) := by
  refine ⟨?_, ?_, ?_, ?_⟩
  · intro h
    have h3 : (¬name = "list_rust_items" ∧ ¬name = "analyze_rust_callgraph")
        ∧ ¬name = "get_rust_source" := by
      simpa [validTool, not_or] using h
    obtain ⟨⟨h1, h2⟩, h3⟩ := h3
    simp [stdio_main, handle_function_call, h1, h2, h3]
  · intro hvalid hreq hs
    have hsb : (r.status_code == 200) = false := beq_eq_false_iff_ne.mpr hs
    have hv3 : (name = "list_rust_items" ∨ name = "analyze_rust_callgraph")
        ∨ name = "get_rust_source" := by
      simpa [validTool] using hvalid
    rcases hv3 with (h | h) | h <;> subst h
    · simp [stdio_main, handle_function_call, constBackend, classifyStdio, hsb]
    all_goals
      obtain ⟨v, hv⟩ := Option.isSome_iff_exists.mp
        (by simpa [requiredPresent, requiresFunction] using hreq)
    all_goals
      simp [stdio_main, handle_function_call, constBackend, classifyStdio, hsb, hv]
  · intro hreq hmiss
    have h2 : name = "analyze_rust_callgraph" ∨ name = "get_rust_source" := by
      simpa [requiresFunction] using hreq
    rcases h2 with h | h <;> subst h <;>
      simp [stdio_main, handle_function_call, hmiss]
  · intro hvalid hreq
    have hv3 : (name = "list_rust_items" ∨ name = "analyze_rust_callgraph")
        ∨ name = "get_rust_source" := by
      simpa [validTool] using hvalid
    rcases hv3 with (h | h) | h <;> subst h
    · simp [stdio_main, handle_function_call, constBackend, classifyStdio]
    all_goals
      obtain ⟨v, hv⟩ := Option.isSome_iff_exists.mp
        (by simpa [requiredPresent, requiresFunction] using hreq)
    all_goals
      simp [stdio_main, handle_function_call, constBackend, classifyStdio, hv]

/-- Claim C3, witness for the amended theorem: one concrete run of each of
the four error kinds. -/
theorem C3_amended_witness :
    stdio_main (constBackend (HttpOutcome.response resp200items)) "delete_everything" []
      = (PyResult.ok (dumps (Json.obj [("error",
          Json.str ("Unknown function: " ++ "delete_everything"))])), [])
    ∧ (stdio_main (constBackend (HttpOutcome.response resp404N)) "list_rust_items" []).1
      = PyResult.ok (dumps (errEnvelope resp404N.status_code resp404N.text))
    ∧ stdio_main (constBackend (HttpOutcome.response resp200items)) "get_rust_source" []
      = (PyResult.exn (PyExn.keyError "function"), [])
    ∧ (stdio_main (constBackend (HttpOutcome.transportFailure "connection refused"))
        "list_rust_items" []).1
      = PyResult.exn (PyExn.requestException "connection refused") :=
  ⟨(C3_amended (constBackend (HttpOutcome.response resp200items)) "delete_everything" []
      "connection refused" resp404N).1 rfl,
   (C3_amended (constBackend (HttpOutcome.response resp404N)) "list_rust_items" []
      "connection refused" resp404N).2.1 rfl rfl (by decide),
   (C3_amended (constBackend (HttpOutcome.response resp200items)) "get_rust_source" []
      "connection refused" resp404N).2.2.1 rfl rfl,
   (C3_amended (constBackend (HttpOutcome.transportFailure "connection refused"))
      "list_rust_items" [] "connection refused" resp404N).2.2.2 rfl rfl⟩

/-- Claim C4, counterexample.  The claim says the stdio shape writes
exactly `\x7b"items": ["a", "b"]\x7d` with no result wrapper.  It refutes:
`handle_function_call` returns `response.json()` whole, so the stdio shape
prints the entire decoded body, wrapper included. -/
theorem C4_counterexample :
    (stdio_main (constBackend (HttpOutcome.response resp200items)) "list_rust_items" []).1
      = PyResult.ok "\x7b\"result\": \x7b\"items\": [\"a\", \"b\"]\x7d\x7d"
    ∧ "\x7b\"result\": \x7b\"items\": [\"a\", \"b\"]\x7d\x7d" ≠ "\x7b\"items\": [\"a\", \"b\"]\x7d" :=
  ⟨rfl, by decide⟩

/-- Claim C4, amended.  On HTTP 200 with body
`\x7b"result": \x7b"items": ["a", "b"]\x7d\x7d`, the stdio shape writes the
whole decoded body — `\x7b"result": \x7b"items": ["a", "b"]\x7d\x7d`, result
wrapper included — while the library shape's `call_tool` returns the
unwrapped value `\x7b"items": ["a", "b"]\x7d` as the claim states. -/
theorem C4_amended :
    (stdio_main (constBackend (HttpOutcome.response resp200items)) "list_rust_items" []).1
      = PyResult.ok "\x7b\"result\": \x7b\"items\": [\"a\", \"b\"]\x7d\x7d"
    ∧ (call_tool (constBackend (HttpOutcome.response resp200items)) "list_rust_items" []).1
      = PyResult.ok (Json.obj [("items", Json.arr [Json.str "a", Json.str "b"])]) :=
  ⟨rfl, rfl⟩

/-- Claim C5, counterexample.  The claim says a network-level failure
becomes a structured `TransportError` result and does not crash the host
process.  It refutes: neither function catches the `requests` exception,
so it propagates out of both — in the stdio shape nothing downstream
catches it and the process crashes instead of emitting a structured
error result. -/
theorem C5_counterexample :
    (stdio_main (constBackend (HttpOutcome.transportFailure "connection refused"))
        "get_rust_source" [("function", Json.str "foo")]).1
      = PyResult.exn (PyExn.requestException "connection refused")
    ∧ isExn (stdio_main (constBackend (HttpOutcome.transportFailure "connection refused"))
        "get_rust_source" [("function", Json.str "foo")]).1 = true
    ∧ (call_tool (constBackend (HttpOutcome.transportFailure "connection refused"))
        "get_rust_source" [("function", Json.str "foo")]).1
      = PyResult.exn (PyExn.requestException "connection refused") :=
  ⟨rfl, rfl, rfl⟩

/-- Claim C5, amended.  A network-level failure raises the underlying
`requests` exception out of both dispatch functions (after the one
request was attempted): the library shape propagates it to its caller,
and the stdio shape crashes with the uncaught exception.  The raised
exception is distinct from the non-200 `BackendError` envelope, but no
structured `TransportError` result is ever produced. -/
theorem C5_amended (name : String) (args : List (String × Json)) (msg : String)
    (hvalid : validTool name = true) (hreq : requiredPresent name args = true) :
    (handle_function_call (constBackend (HttpOutcome.transportFailure msg)) name args).1
      = PyResult.exn (PyExn.requestException msg)
    ∧ (call_tool (constBackend (HttpOutcome.transportFailure msg)) name args).1
      = PyResult.exn (PyExn.requestException msg) := by
  have hv3 : (name = "list_rust_items" ∨ name = "analyze_rust_callgraph")
      ∨ name = "get_rust_source" := by
    simpa [validTool] using hvalid
  rcases hv3 with (h | h) | h <;> subst h
  · constructor <;>
      simp [handle_function_call, call_tool, constBackend, classifyStdio, classifyQwen]
  all_goals
    obtain ⟨v, hv⟩ := Option.isSome_iff_exists.mp
      (by simpa [requiredPresent, requiresFunction] using hreq)
  all_goals
    constructor <;>
      simp [handle_function_call, call_tool, constBackend, classifyStdio, classifyQwen, hv]

/-- Claim C5, witness for the amended theorem at a concrete refused
connection. -/
theorem C5_amended_witness :
    validTool "list_rust_items" = true
    ∧ requiredPresent "list_rust_items" [] = true
    ∧ ((handle_function_call (constBackend (HttpOutcome.transportFailure "connection refused"))
          "list_rust_items" []).1
        = PyResult.exn (PyExn.requestException "connection refused")
      ∧ (call_tool (constBackend (HttpOutcome.transportFailure "connection refused"))
          "list_rust_items" []).1
        = PyResult.exn (PyExn.requestException "connection refused")) :=
  ⟨rfl, rfl, C5_amended "list_rust_items" [] "connection refused" rfl rfl⟩

/-- Claim C6: whenever the arguments of `analyze_rust_callgraph` bind
`function`, both shapes send one request to `/tool/generate_call_graph`
whose body binds `root_function` to that value and has no `function`
key — the fixed tool-specific renaming rule. -/
theorem C6_thm (backend : Backend) (args : List (String × Json)) (v : Json)
    (hf : lookupStr args "function" = some v) :
    ∃ req : SentRequest,
      (handle_function_call backend "analyze_rust_callgraph" args).2 = [req]
      ∧ (call_tool backend "analyze_rust_callgraph" args).2 = [req]
      ∧ req.endpoint = "/tool/generate_call_graph"
      ∧ lookupStr req.body "root_function" = some v
      ∧ lookupStr req.body "function" = none := by
  refine ⟨⟨"/tool/generate_call_graph",
    [("root_function", v), ("public_only", dictGet args "public_only" (Json.bool false)),
     ("blacklist", dictGet args "blacklist" (Json.arr []))]⟩, ?_, ?_, rfl, ?_, ?_⟩ <;>
    simp [handle_function_call, call_tool, hf, lookupStr]

/-- Claim C6, witness at the spec's example `\x7bfunction: "foo"\x7d`. -/
theorem C6_witness :
    lookupStr [("function", Json.str "foo")] "function" = some (Json.str "foo")
    ∧ ∃ req : SentRequest,
        (handle_function_call (constBackend (HttpOutcome.response resp200items))
          "analyze_rust_callgraph" [("function", Json.str "foo")]).2 = [req]
        ∧ (call_tool (constBackend (HttpOutcome.response resp200items))
            "analyze_rust_callgraph" [("function", Json.str "foo")]).2 = [req]
        ∧ req.endpoint = "/tool/generate_call_graph"
        ∧ lookupStr req.body "root_function" = some (Json.str "foo")
        ∧ lookupStr req.body "function" = none :=
  ⟨rfl, C6_thm (constBackend (HttpOutcome.response resp200items))
    [("function", Json.str "foo")] (Json.str "foo") rfl⟩

/-- Claim C7: with the optional keys omitted (and `function` supplied
where required), each of the three tools sends, in both shapes, a body
carrying exactly the documented defaults — `public_only = false` for
`list_rust_items` and `analyze_rust_callgraph`, `blacklist = []` for all
three — and nothing else beyond the required bindings. -/
theorem C7_thm (backend : Backend) (args : List (String × Json)) (v : Json)
    (h1 : lookupStr args "public_only" = none) (h2 : lookupStr args "blacklist" = none)
    (hf : lookupStr args "function" = some v) :
    (handle_function_call backend "list_rust_items" args).2
      = [⟨"/tool/list_all", [("public_only", Json.bool false), ("blacklist", Json.arr [])]⟩]
    ∧ (handle_function_call backend "analyze_rust_callgraph" args).2
      = [⟨"/tool/generate_call_graph",
          [("root_function", v), ("public_only", Json.bool false), ("blacklist", Json.arr [])]⟩]
    ∧ (handle_function_call backend "get_rust_source" args).2
      = [⟨"/tool/get_source", [("function", v), ("blacklist", Json.arr [])]⟩]
    ∧ (call_tool backend "list_rust_items" args).2
      = [⟨"/tool/list_all", [("public_only", Json.bool false), ("blacklist", Json.arr [])]⟩]
    ∧ (call_tool backend "analyze_rust_callgraph" args).2
      = [⟨"/tool/generate_call_graph",
          [("root_function", v), ("public_only", Json.bool false), ("blacklist", Json.arr [])]⟩]
    ∧ (call_tool backend "get_rust_source" args).2
      = [⟨"/tool/get_source", [("function", v), ("blacklist", Json.arr [])]⟩] := by
  refine ⟨?_, ?_, ?_, ?_, ?_, ?_⟩ <;>
    simp [handle_function_call, call_tool, dictGet, h1, h2, hf]

/-- Claim C7, witness at arguments supplying only the required key. -/
theorem C7_witness :
    lookupStr [("function", Json.str "foo")] "public_only" = none
    ∧ lookupStr [("function", Json.str "foo")] "blacklist" = none
    ∧ lookupStr [("function", Json.str "foo")] "function" = some (Json.str "foo")
    ∧ (handle_function_call (constBackend (HttpOutcome.response resp200items))
        "list_rust_items" [("function", Json.str "foo")]).2
      = [⟨"/tool/list_all", [("public_only", Json.bool false), ("blacklist", Json.arr [])]⟩] :=
  ⟨rfl, rfl, rfl,
    (C7_thm (constBackend (HttpOutcome.response resp200items))
      [("function", Json.str "foo")] (Json.str "foo") rfl rfl rfl).1⟩

/-- Claim C8: when the arguments of `analyze_rust_callgraph` or
`get_rust_source` lack the required `function` key, both shapes raise
`KeyError("function")` — the code's realization of the `MissingArgument`
error, carrying the offending key — while building the body dict, and the
request trace is empty: no HTTP request, partial or otherwise, is
attempted. -/
theorem C8_thm (backend : Backend) (name : String) (args : List (String × Json))
    (hreq : requiresFunction name = true) (hmiss : lookupStr args "function" = none) :
    handle_function_call backend name args = (PyResult.exn (PyExn.keyError "function"), [])
    ∧ call_tool backend name args = (PyResult.exn (PyExn.keyError "function"), []) := by
  have h2 : name = "analyze_rust_callgraph" ∨ name = "get_rust_source" := by
    simpa [requiresFunction] using hreq
  rcases h2 with h | h <;> subst h <;>
    constructor <;> simp [handle_function_call, call_tool, hmiss]

/-- Claim C8, witness at empty arguments. -/
theorem C8_witness :
    requiresFunction "analyze_rust_callgraph" = true
    ∧ lookupStr [] "function" = none
    ∧ (handle_function_call (constBackend (HttpOutcome.response resp200items))
        "analyze_rust_callgraph" [] = (PyResult.exn (PyExn.keyError "function"), [])
      ∧ call_tool (constBackend (HttpOutcome.response resp200items))
        "analyze_rust_callgraph" [] = (PyResult.exn (PyExn.keyError "function"), [])) :=
  ⟨rfl, rfl, C8_thm (constBackend (HttpOutcome.response resp200items))
    "analyze_rust_callgraph" [] rfl rfl⟩

/-- Claim C9: issuing the same tool request twice produces byte-identical
rendered request bodies.  Both dispatch functions are embedded as pure
functions of the backend, the name and the arguments — faithful to the
source, which reads and writes no module-level mutable state between
calls (its only globals are the constant base address and, in the library
shape, the static tool catalog) — so the two invocations' rendered traces
coincide. -/
theorem C9_thm (backend : Backend) (name : String) (args : List (String × Json)) :
    (runTwiceStdio backend name args).1 = (runTwiceStdio backend name args).2
    ∧ (runTwiceQwen backend name args).1 = (runTwiceQwen backend name args).2 :=
  ⟨rfl, rfl⟩

/-- Claim C10: whatever extra keys the arguments carry, the body sent for
each tool has exactly the documented key list — caller-supplied extras
such as a `public_only` handed to `get_rust_source` are dropped, its
body's keys being exactly `function` and `blacklist`. -/
theorem C10_thm (backend : Backend) (args : List (String × Json)) (v : Json)
    (hf : lookupStr args "function" = some v) :
    (handle_function_call backend "list_rust_items" args).2.map bodyKeys
      = [["public_only", "blacklist"]]
    ∧ (handle_function_call backend "analyze_rust_callgraph" args).2.map bodyKeys
      = [["root_function", "public_only", "blacklist"]]
    ∧ (handle_function_call backend "get_rust_source" args).2.map bodyKeys
      = [["function", "blacklist"]]
    ∧ (call_tool backend "list_rust_items" args).2.map bodyKeys
      = [["public_only", "blacklist"]]
    ∧ (call_tool backend "analyze_rust_callgraph" args).2.map bodyKeys
      = [["root_function", "public_only", "blacklist"]]
    ∧ (call_tool backend "get_rust_source" args).2.map bodyKeys
      = [["function", "blacklist"]] := by
  refine ⟨?_, ?_, ?_, ?_, ?_, ?_⟩ <;>
    simp [handle_function_call, call_tool, bodyKeys, hf]

/-- Claim C10, witness: `get_rust_source` handed an extra `public_only`
and a `junk` key still sends exactly `function` and `blacklist`. -/
theorem C10_witness :
    lookupStr [("function", Json.str "foo"), ("public_only", Json.bool true),
        ("junk", Json.null)] "function" = some (Json.str "foo")
    ∧ (handle_function_call (constBackend (HttpOutcome.response resp200items))
        "get_rust_source"
        [("function", Json.str "foo"), ("public_only", Json.bool true),
         ("junk", Json.null)]).2.map bodyKeys
      = [["function", "blacklist"]]
    ∧ (call_tool (constBackend (HttpOutcome.response resp200items))
        "get_rust_source"
        [("function", Json.str "foo"), ("public_only", Json.bool true),
         ("junk", Json.null)]).2.map bodyKeys
      = [["function", "blacklist"]] :=
  ⟨rfl,
    (C10_thm (constBackend (HttpOutcome.response resp200items))
      [("function", Json.str "foo"), ("public_only", Json.bool true), ("junk", Json.null)]
      (Json.str "foo") rfl).2.2.1,
    (C10_thm (constBackend (HttpOutcome.response resp200items))
      [("function", Json.str "foo"), ("public_only", Json.bool true), ("junk", Json.null)]
      (Json.str "foo") rfl).2.2.2.2.2⟩

end Morpho
